import Mathlib

/-!
Shallow embedding of `src/app.py` of simrahmad/video-to-pdf-backend.

The program is a Flask service turning a video reference into an emailed
PDF transcript.  The embedding models the pure control flow of the two
endpoints (`/convert` and `/convert-upload`) and their helpers
(`download_via_y2mate`, `transcribe_audio`, `create_pdf_from_text`,
`allowed_file`, `extract_video_id`).  External effects are abstracted:

* the network is an environment (`Y2Env`) recording what each `requests`
  call would return;
* the local disk is an explicit association list from path to size
  (`Disk`), which also records every path written during an invocation;
* the Vosk recognizer is a stream of per-frame outcomes (`FrameOut`);
* ffmpeg invocations are described by their exit code, stderr text and the
  file they produce;
* SMTP delivery and the PDF renderer are treated as pure collaborators
  (the renderer writes one file and always succeeds), as the spec scopes
  them out of the core.
-/

namespace VideoToPdf

/-! ### Filesystem model -/

/-- Files on disk: an association list from path to byte size. -/
abbrev FS := List (String × Nat)

/-- Writing a file: any previous entry for the path is replaced. -/
def fsWrite (fs : FS) (p : String) (n : Nat) : FS :=
  (p, n) :: fs.filter (fun e => !(e.1 == p))

/-- `os.remove`. -/
def fsRemove (fs : FS) (p : String) : FS :=
  fs.filter (fun e => !(e.1 == p))

/-- `os.path.exists`. -/
def fsExistsB (fs : FS) (p : String) : Bool :=
  fs.any (fun e => e.1 == p)

/-- `os.path.getsize` (0 when absent; the code only calls it guarded by
`os.path.exists`). -/
def fsSizeD (fs : FS) (p : String) : Nat :=
  match fs.find? (fun e => e.1 == p) with
  | some e => e.2
  | none => 0

/-- Disk state of one invocation: the current files, plus the list of every
path the invocation has written (in order), used to observe which temporary
names a run touches. -/
structure Disk where
  files : FS
  written : List String
deriving Repr, DecidableEq

def diskWrite (d : Disk) (p : String) (n : Nat) : Disk :=
  ⟨fsWrite d.files p n, d.written ++ [p]⟩

def diskRemove (d : Disk) (p : String) : Disk :=
  ⟨fsRemove d.files p, d.written⟩

/-- The `if <path> and os.path.exists(<path>): os.remove(<path>)` cleanup
idiom of `convert_video` and `convert_upload`. -/
def removeIfExists (d : Disk) (p : String) : Disk :=
  if fsExistsB d.files p then diskRemove d p else d

def emptyDisk : Disk := ⟨[], []⟩

/-! ### Small Python string semantics -/

/-- Does the list start with the given pattern? -/
def listStartsWith : List Char → List Char → Bool
  | _, [] => true
  | [], _ :: _ => false
  | a :: as, b :: bs => a == b && listStartsWith as bs

/-- Occurrence of `pat` anywhere in the list (Python `pat in s`). -/
def listHasSub (pat : List Char) : List Char → Bool
  | [] => listStartsWith [] pat
  | c :: rest => listStartsWith (c :: rest) pat || listHasSub pat rest

/-- Python `pat in s` on strings. -/
def strHasSub (s pat : String) : Bool :=
  listHasSub pat.toList s.toList

/-- Python truthiness of an optional string: `None` and `""` are falsy. -/
def pyFalsy : Option String → Bool
  | none => true
  | some s => s == ""

/-- The whitespace characters Python `str.strip()` removes (the ASCII ones;
the transcripts at issue are ASCII). -/
def isPySpace (c : Char) : Bool :=
  c == ' ' || c == '\t' || c == '\n' || c == '\r' ||
    c == (Char.ofNat 11) || c == (Char.ofNat 12)

/-- Python `str.strip()`: drop leading and trailing whitespace. -/
def pyStrip (s : String) : String :=
  String.mk (((s.toList.dropWhile isPySpace).reverse.dropWhile isPySpace).reverse)

/-! ### `extract_video_id` (src/app.py lines 39-50)

The three regular expressions are searched in order; each scans start
positions left to right.  The character class is `[0-9A-Za-z_-]`, always
matched exactly 11 times. -/

def isIdChar (c : Char) : Bool :=
  c.isAlphanum || c == '_' || c == '-'

/-- Exactly 11 id characters at the front of the list, as a string. -/
def takeId11 (cs : List Char) : Option String :=
  let pre := cs.take 11
  if pre.length == 11 && pre.all isIdChar then some (String.mk pre) else none

/-- First match of the pattern `(?:v=|\/)([0-9A-Za-z_-]` followed by 11
repetitions and a trailing wildcard: at each position try `v=` then `/`. -/
def matchPat1 : List Char → Option String
  | [] => none
  | c :: rest =>
    match
      (if c == 'v' then
        match rest with
        | '=' :: r2 => takeId11 r2
        | _ => none
      else if c == '/' then takeId11 rest
      else none) with
    | some v => some v
    | none => matchPat1 rest

/-- Pattern `(?:embed\/)` followed by 11 id characters. -/
def matchPat2 : List Char → Option String
  | [] => none
  | 'e' :: 'm' :: 'b' :: 'e' :: 'd' :: '/' :: r =>
    match takeId11 r with
    | some v => some v
    | none => matchPat2 ('m' :: 'b' :: 'e' :: 'd' :: '/' :: r)
  | _ :: rest => matchPat2 rest

/-- Pattern `(?:watch\?v=)` followed by 11 id characters. -/
def matchPat3 : List Char → Option String
  | [] => none
  | 'w' :: 'a' :: 't' :: 'c' :: 'h' :: '?' :: 'v' :: '=' :: r =>
    match takeId11 r with
    | some v => some v
    | none => matchPat3 ('a' :: 't' :: 'c' :: 'h' :: '?' :: 'v' :: '=' :: r)
  | _ :: rest => matchPat3 rest

def extract_video_id (url : String) : Option String :=
  match matchPat1 url.toList with
  | some v => some v
  | none =>
    match matchPat2 url.toList with
    | some v => some v
    | none => matchPat3 url.toList

/-! ### `download_via_y2mate` (src/app.py lines 52-216)

The three `requests` calls are described by an environment.  A `Req.failed`
stands for a `requests.Timeout` or any other exception raised by the call
(including a failing `.json()` parse); the Python code catches every one of
those at the bottom of the function and returns `None`. -/

/-- A value of a format dictionary such as `links["mp3"]["mp3128"]`: only its
`k` field is read.  `none` models a missing `k` key, whose lookup raises a
`KeyError` (so the whole download returns `None`). -/
structure FmtEntry where
  k : Option String
deriving Repr, DecidableEq

/-- The parsed body of the analyze response: its `status` field and its
`links` field (a dictionary of format dictionaries, insertion ordered). -/
structure AnalyzeJson where
  statusField : Option String
  links : Option (List (String × List (String × FmtEntry)))
deriving Repr, DecidableEq

/-- The parsed body of the convert response: `status` and `dlink`. -/
structure ConvertJson where
  statusField : Option String
  dlink : Option String
deriving Repr, DecidableEq

/-- How the streamed download body behaves: delivered completely with the
given byte count, or raising mid-stream after writing some bytes. -/
inductive StreamOutcome
  | complete (bytes : Nat)
  | interrupted (bytes : Nat)
deriving Repr, DecidableEq

/-- Outcome of one `requests` call. -/
inductive Req (α : Type)
  | ok (status : Nat) (body : α)
  | failed
deriving Repr, DecidableEq

structure Y2Env where
  analyze : Req AnalyzeJson
  convert : Req (ConvertJson)
  download : Req StreamOutcome
deriving Repr, DecidableEq

/-- `['k']` access on a format entry: a missing key is a `KeyError`. -/
def getK (e : FmtEntry) : Except Unit String :=
  match e.k with
  | some v => Except.ok v
  | none => Except.error ()

/-- Lines 107-132: choose a `k` value, MP3 formats first (128kbps winning),
then the first MP4 format.  The result is the Python `k_value` variable
(`none` when it is still `None`); `Except.error` models a `KeyError`. -/
def selectKValue (links : List (String × List (String × FmtEntry))) :
    Except Unit (Option String) :=
  let step1 : Except Unit (Option String) :=
    match List.lookup "mp3" links with
    | some mp3Links =>
      match List.lookup "mp3128" mp3Links with
      | some e => (getK e).map some
      | none =>
        match mp3Links with
        | [] => Except.ok none
        | (_, e) :: _ => (getK e).map some
    | none => Except.ok none
  match step1 with
  | Except.error u => Except.error u
  | Except.ok kv =>
    if pyFalsy kv then
      match List.lookup "mp4" links with
      | some mp4Links =>
        match mp4Links with
        | [] => Except.ok kv
        | (_, e) :: _ => (getK e).map some
      | none => Except.ok kv
    else Except.ok kv

/-- Line 202: the downloaded file is kept only when it exists and its size
is at least 1000 bytes (`not os.path.exists(f) or os.path.getsize(f) < 1000`
rejects it). -/
def downloadAcceptable (ex : Bool) (size : Nat) : Bool :=
  ex && !(decide (size < 1000))

def download_via_y2mate (url : String) (env : Y2Env) (d : Disk) :
    Option String × Disk :=
  match extract_video_id url with
  | none => (none, d)
  | some _vid =>
    match env.analyze with
    | Req.failed => (none, d)
    | Req.ok st aj =>
      if st != 200 then (none, d)
      else if aj.statusField != some "ok" then (none, d)
      else
        match selectKValue (aj.links.getD []) with
        | Except.error _ => (none, d)
        | Except.ok kv =>
          if pyFalsy kv then (none, d)
          else
            match env.convert with
            | Req.failed => (none, d)
            | Req.ok cst cj =>
              if cst != 200 then (none, d)
              else if cj.statusField != some "ok" then (none, d)
              else if pyFalsy cj.dlink then (none, d)
              else
                match env.download with
                | Req.failed => (none, d)
                | Req.ok dst stream =>
                  if dst != 200 then (none, d)
                  else
                    match stream with
                    | StreamOutcome.interrupted m =>
                      (none, diskWrite d "audio.mp3" m)
                    | StreamOutcome.complete n =>
                      if downloadAcceptable
                          (fsExistsB (diskWrite d "audio.mp3" n).files "audio.mp3")
                          (fsSizeD (diskWrite d "audio.mp3" n).files "audio.mp3") then
                        (some "audio.mp3", diskWrite d "audio.mp3" n)
                      else (none, diskWrite d "audio.mp3" n)

/-! ### `transcribe_audio` (src/app.py lines 218-275) -/

/-- What one `wf.readframes(4000)` iteration yields from the recognizer:
either `AcceptWaveform` returned false (`pending`), or it returned true and
`json.loads(rec.Result())` carries the given `text` field (`none` when the
key is absent). -/
inductive FrameOut
  | pending
  | result (text : Option String)
deriving Repr, DecidableEq

/-- Environment of one `transcribe_audio` call: the ffmpeg conversion
outcome (exit code, stderr, bytes of the WAV it writes on success) and the
recognizer behaviour (per-frame outcomes and the `FinalResult` text). -/
structure TransEnv where
  ffmpegRet : Int
  ffmpegStderr : String
  wavBytes : Nat
  frames : List FrameOut
  finalText : Option String
deriving Repr, DecidableEq

/-- Lines 246-253: the while loop accumulating utterances into the mutable
`transcription` list.  A finalized text is appended only when its `text`
key exists and strips to something nonempty. -/
def collectLoop : List FrameOut → List String → List String
  | [], acc => acc
  | FrameOut.pending :: rest, acc => collectLoop rest acc
  | FrameOut.result none :: rest, acc => collectLoop rest acc
  | FrameOut.result (some s) :: rest, acc =>
    if pyStrip s ≠ "" then collectLoop rest (acc ++ [s]) else collectLoop rest acc

/-- Lines 246-257: the loop plus the `FinalResult` flush. -/
def runRecognizer (frames : List FrameOut) (finalText : Option String) :
    List String :=
  let transcription := collectLoop frames []
  match finalText with
  | some s => if pyStrip s ≠ "" then transcription ++ [s] else transcription
  | none => transcription

/-- Declarative description of the accumulation, for comparison with the
imperative loop: the finalized texts that contain speech (nonblank after
stripping), in encounter order. -/
def finalizedTexts (frames : List FrameOut) : List String :=
  frames.filterMap fun f =>
    match f with
    | FrameOut.result (some s) => if pyStrip s ≠ "" then some s else none
    | _ => none

/-- Declarative transcript: the end-of-stream flush is one more finalized
result, and the kept texts are joined with single spaces. -/
def specTranscript (frames : List FrameOut) (finalText : Option String) :
    String :=
  String.intercalate " " (finalizedTexts (frames ++ [FrameOut.result finalText]))

/-- Line 269: the placeholder substituted for a below-floor transcript. -/
def noSpeechMsg : String :=
  "No clear speech detected in the video. Please ensure the video contains audible speech."

/-- `transcribe_audio`: converts to WAV (raising on a nonzero ffmpeg exit),
runs the recognizer loop, removes the WAV, joins the utterances and
substitutes the placeholder when fewer than 10 characters survive
stripping.  `Except.error` is a raised exception, caught by the caller. -/
def transcribe_audio (audioFile : String) (env : TransEnv) (d : Disk) :
    Except String String × Disk :=
  if env.ffmpegRet != 0 then (Except.error "Audio conversion failed", d)
  else
    let d1 := diskWrite d "temp_audio.wav" env.wavBytes
    let fullText := String.intercalate " " (runRecognizer env.frames env.finalText)
    let d2 := if fsExistsB d1.files "temp_audio.wav" then
        diskRemove d1 "temp_audio.wav" else d1
    if (pyStrip fullText).length < 10 then (Except.ok noSpeechMsg, d2)
    else (Except.ok fullText, d2)

/-! ### `create_pdf_from_text` (src/app.py lines 277-323)

The renderer is an external collaborator; the embedding keeps its one
observable effect, writing `output.pdf` and returning that path. -/

def create_pdf_from_text (_text : String) (d : Disk) : String × Disk :=
  ("output.pdf", diskWrite d "output.pdf" 1)

/-! ### `/convert` endpoint, `convert_video` (src/app.py lines 357-429) -/

def missingMsg : String := "Video URL or email missing"

def onlyYoutubeMsg : String :=
  "Currently only YouTube URLs are supported. Please use the Upload Video feature for other videos."

def downloadFailMsg : String :=
  "Failed to download video. The video may be private, age-restricted, or temporarily unavailable. Please try a different video or use the Upload feature."

def successMsg : String :=
  "PDF sent to email successfully! Check your inbox in 1-2 minutes."

/-- Outcome of one `/convert` invocation: the HTTP status and message, the
disk at return, whether the Y2Mate downloader was invoked, and the text
handed to the PDF renderer (when one was). -/
structure RunResult where
  status : Nat
  message : String
  disk : Disk
  downloadAttempted : Bool
  transcript : Option String
deriving Repr, DecidableEq

/-- `convert_video`: validate the request, gate on the URL looking like
YouTube, download via Y2Mate, transcribe, render, email, clean up.  The
`except` block removes `audio_file` and `pdf_file` when they exist; the
early return after a failed download performs no cleanup (lines 386-390).
Email delivery is scoped out (a pure sink that succeeds). -/
def convert_video (videoUrl email : Option String) (env : Y2Env)
    (tenv : TransEnv) (d0 : Disk) : RunResult :=
  if pyFalsy videoUrl || pyFalsy email then
    ⟨400, missingMsg, d0, false, none⟩
  else
    let url := videoUrl.getD ""
    if !(strHasSub url "youtube.com" || strHasSub url "youtu.be") then
      ⟨400, onlyYoutubeMsg, d0, false, none⟩
    else
      match download_via_y2mate url env d0 with
      | (none, d1) => ⟨500, downloadFailMsg, d1, true, none⟩
      | (some audioFile, d1) =>
        match transcribe_audio audioFile tenv d1 with
        | (Except.error msg, d2) =>
          let d3 := removeIfExists d2 audioFile
          ⟨500, "Processing failed: " ++ msg, d3, true, none⟩
        | (Except.ok text, d2) =>
          let pr := create_pdf_from_text text d2
          let d4 := removeIfExists pr.2 audioFile
          let d5 := removeIfExists d4 pr.1
          ⟨200, successMsg, d5, true, some text⟩

/-! ### `/convert-upload` endpoint, `convert_upload` (src/app.py lines 431-530) -/

def ALLOWED_EXTENSIONS : List String :=
  ["mp4", "avi", "mov", "mkv", "webm", "flv", "3gp", "wmv"]

/-- The characters after the last dot (Python `filename.rsplit(chr(46), 1)[1]`,
only evaluated when the name contains a dot). -/
def afterLastDotL (l : List Char) : List Char :=
  (l.reverse.takeWhile (fun c => c != '.')).reverse

/-- `allowed_file` (src/app.py lines 36-37). -/
def allowed_file (filename : String) : Bool :=
  strHasSub filename "." &&
    ALLOWED_EXTENSIONS.contains
      (String.mk ((afterLastDotL filename.toList).map Char.toLower))

def emailMissingMsg : String := "Email missing"
def noFileMsg : String := "No video file uploaded"
def noSelectedMsg : String := "No video file selected"
def invalidTypeMsg : String :=
  "Invalid file type. Supported: MP4, AVI, MOV, MKV, WEBM, FLV, 3GP, WMV"
def extractFailMsg : String := "Failed to extract audio from video"
def noAudioMsg : String :=
  "No audio found in the video. Please upload a video with speech."

/-- Lines 480-488: after running ffmpeg, a nonzero exit raises the fixed
conversion failure (the stderr text is only printed, never carried), and a
zero exit raises the no-audio failure when the output file is absent or its
size is exactly zero. -/
def extractionStep (ret : Int) (_stderr : String) (outExists : Bool)
    (outSize : Nat) : Except String Unit :=
  if ret != 0 then Except.error extractFailMsg
  else if !outExists || outSize == 0 then Except.error noAudioMsg
  else Except.ok ()

/-- Environment of one `/convert-upload` invocation: the sanitized name
`werkzeug.utils.secure_filename` produces (an external library call), the
uploaded byte count, the ffmpeg extraction outcome, and the transcription
environment. -/
structure UploadEnv where
  sanitizedName : String
  videoBytes : Nat
  ffmpegRet : Int
  ffmpegStderr : String
  audioOutExists : Bool
  audioOutSize : Nat
  tenv : TransEnv
deriving Repr, DecidableEq

structure UploadResult where
  status : Nat
  message : String
  disk : Disk
deriving Repr, DecidableEq

/-- The `try` block of `convert_upload` (lines 457-510): save the upload,
extract audio with ffmpeg, transcribe, render, email and clean up.  Every
raised exception lands in the `except` block, which removes the saved
video, the extracted audio and the PDF when they exist. -/
def convertUploadTry (env : UploadEnv) (d0 : Disk) : UploadResult :=
  let videoPath := "uploads/" ++ env.sanitizedName
  let d1 := diskWrite d0 videoPath env.videoBytes
  let audioFile := "uploaded_audio.mp3"
  let d2 := if env.ffmpegRet == 0 && env.audioOutExists then
      diskWrite d1 audioFile env.audioOutSize else d1
  match extractionStep env.ffmpegRet env.ffmpegStderr
      (fsExistsB d2.files audioFile) (fsSizeD d2.files audioFile) with
  | Except.error msg =>
    let d3 := removeIfExists (removeIfExists d2 videoPath) audioFile
    ⟨500, "Processing failed: " ++ msg, d3⟩
  | Except.ok _ =>
    match transcribe_audio audioFile env.tenv d2 with
    | (Except.error msg, d3) =>
      let d4 := removeIfExists (removeIfExists d3 videoPath) audioFile
      ⟨500, "Processing failed: " ++ msg, d4⟩
    | (Except.ok text, d3) =>
      let pr := create_pdf_from_text text d3
      let d5 := removeIfExists pr.2 videoPath
      let d6 := removeIfExists d5 audioFile
      let d7 := removeIfExists d6 pr.1
      ⟨200, successMsg, d7⟩

/-- `convert_upload`: validate email, presence of the file part, a nonempty
filename and `allowed_file`; then run the try block. -/
def convert_upload (email : Option String) (hasVideoField : Bool)
    (filename : String) (env : UploadEnv) (d0 : Disk) : UploadResult :=
  if pyFalsy email then ⟨400, emailMissingMsg, d0⟩
  else if !hasVideoField then ⟨400, noFileMsg, d0⟩
  else if filename == "" then ⟨400, noSelectedMsg, d0⟩
  else if !(allowed_file filename) then ⟨400, invalidTypeMsg, d0⟩
  else convertUploadTry env d0

/-! ### Reference predicate for the upload filename rule

Stated independently of the `rsplit` computation: the filename splits as
`base ++ [dot] ++ ext` with a dot-free `ext` whose lowercasing is an allowed
extension.  Such a split, when it exists, is exactly the split at the last
dot. -/

def claimedAllowed (filename : String) : Prop :=
  ∃ base ext : List Char, filename.toList = base ++ '.' :: ext ∧ '.' ∉ ext ∧
    String.mk (ext.map Char.toLower) ∈ ALLOWED_EXTENSIONS

/-! ### Concrete environments used by witnesses and counterexamples -/

def ytUrl : String := "https://www.youtube.com/watch?v=dQw4w9WgXcQ"

def ytUrl2 : String := "https://youtu.be/AAAAAAAAAAA"

def analyzeOkJson : AnalyzeJson :=
  ⟨some "ok", some [("mp3", [("mp3128", ⟨some "kk"⟩)])]⟩

/-- Every remote step succeeds; the audio download delivers 4096 bytes. -/
def envHappy : Y2Env :=
  ⟨Req.ok 200 analyzeOkJson, Req.ok 200 ⟨some "ok", some "https://dl.example/a"⟩,
   Req.ok 200 (StreamOutcome.complete 4096)⟩

/-- Like `envHappy` but the download delivers 8192 bytes. -/
def envHappy2 : Y2Env :=
  ⟨Req.ok 200 analyzeOkJson, Req.ok 200 ⟨some "ok", some "https://dl.example/b"⟩,
   Req.ok 200 (StreamOutcome.complete 8192)⟩

/-- The download delivers only 500 bytes, below the 1000-byte floor. -/
def envSmallDownload : Y2Env :=
  ⟨Req.ok 200 analyzeOkJson, Req.ok 200 ⟨some "ok", some "https://dl.example/a"⟩,
   Req.ok 200 (StreamOutcome.complete 500)⟩

/-- The download delivers exactly 1000 bytes, the minimum floor. -/
def envBoundary : Y2Env :=
  ⟨Req.ok 200 analyzeOkJson, Req.ok 200 ⟨some "ok", some "https://dl.example/a"⟩,
   Req.ok 200 (StreamOutcome.complete 1000)⟩

/-- Y2Mate answers but reports an error status for the video (the shape a
private or restricted video produces). -/
def envRestricted : Y2Env :=
  ⟨Req.ok 200 ⟨some "error", none⟩, Req.failed, Req.failed⟩

/-- Every request to the download service raises (service unreachable). -/
def envUnreachable : Y2Env :=
  ⟨Req.failed, Req.failed, Req.failed⟩

/-- A normal transcription: ffmpeg succeeds and the recognizer yields two
finalized utterances. -/
def tenvHello : TransEnv :=
  ⟨0, "", 2048, [FrameOut.result (some "hello world this is a test")], some "goodbye"⟩

/-- ffmpeg succeeds but the recognizer decodes only 3 characters. -/
def tenvShort : TransEnv :=
  ⟨0, "", 7, [FrameOut.result (some "abc")], none⟩

/-! ## Theorems -/

/-! ### Filesystem helper lemmas -/

theorem fsExistsB_write (fs : FS) (p : String) (n : Nat) :
    fsExistsB (fsWrite fs p n) p = true := by
  simp [fsWrite, fsExistsB]

theorem fsSizeD_write (fs : FS) (p : String) (n : Nat) :
    fsSizeD (fsWrite fs p n) p = n := by
  simp [fsWrite, fsSizeD, List.find?]

theorem downloadAcceptable_true (ex : Bool) (n : Nat)
    (h : downloadAcceptable ex n = true) : ex = true ∧ 1000 ≤ n := by
  unfold downloadAcceptable at h
  simp only [Bool.and_eq_true, Bool.not_eq_true', decide_eq_false_iff_not,
    Nat.not_lt] at h
  exact h

/-- C7: a Y2Mate acquisition attempt reports success (returning the local
media path) only when the downloaded file exists with size at least the
1000-byte floor; any size below the floor is rejected, and a size of exactly
1000 passes the acceptance check. -/
theorem C7_size_floor (url : String) (env : Y2Env) (d : Disk) (p : String)
    (d1 : Disk) (h : download_via_y2mate url env d = (some p, d1)) :
    p = "audio.mp3" ∧ fsExistsB d1.files "audio.mp3" = true ∧
    1000 ≤ fsSizeD d1.files "audio.mp3" ∧
    (∀ ex n, n < 1000 → downloadAcceptable ex n = false) ∧
    downloadAcceptable true 1000 = true := by
  have hrej : ∀ ex n, n < 1000 → downloadAcceptable ex n = false := by
    intro ex n hn
    simp [downloadAcceptable, hn]
  have hacc : downloadAcceptable true 1000 = true := by decide
  unfold download_via_y2mate at h
  repeat' split at h
  any_goals (injection h with h1 h2; exact Option.noConfusion h1)
  rename_i hguard
  injection h with h1 h2
  injection h1 with h1
  subst h2
  refine ⟨h1.symm, ?_, ?_, hrej, hacc⟩
  · simpa [diskWrite] using fsExistsB_write d.files "audio.mp3" _
  · simp only [diskWrite, fsExistsB_write, fsSizeD_write] at hguard ⊢
    exact (downloadAcceptable_true _ _ hguard).2

/-- C7 witness: a concrete download of exactly 1000 bytes — the minimum
floor — is accepted: the acquisition succeeds and the theorem's conclusions
hold at that boundary input. -/
theorem C7_size_floor_witness :
    "audio.mp3" = "audio.mp3" ∧
    fsExistsB (Disk.mk [("audio.mp3", 1000)] ["audio.mp3"]).files "audio.mp3" = true ∧
    1000 ≤ fsSizeD (Disk.mk [("audio.mp3", 1000)] ["audio.mp3"]).files "audio.mp3" ∧
    (∀ ex n, n < 1000 → downloadAcceptable ex n = false) ∧
    downloadAcceptable true 1000 = true :=
  C7_size_floor ytUrl envBoundary emptyDisk "audio.mp3"
    (Disk.mk [("audio.mp3", 1000)] ["audio.mp3"]) rfl

/-! ### Recognizer-loop lemmas (C8) -/

theorem collectLoop_append_eq (frames : List FrameOut) :
    ∀ acc : List String, collectLoop frames acc = acc ++ finalizedTexts frames := by
  induction frames with
  | nil => intro acc; simp [collectLoop, finalizedTexts]
  | cons f rest ih =>
    intro acc
    cases f with
    | pending => simp [collectLoop, finalizedTexts, List.filterMap_cons, ih]
    | result t =>
      cases t with
      | none => simp [collectLoop, finalizedTexts, List.filterMap_cons, ih]
      | some s =>
        by_cases hs : pyStrip s ≠ ""
        · simp [collectLoop, finalizedTexts, List.filterMap_cons, hs, ih]
        · simp only [ne_eq, not_not] at hs
          simp [collectLoop, finalizedTexts, List.filterMap_cons, hs, ih]

/-- C8: the imperative accumulation loop of `transcribe_audio` produces
exactly the finalized utterance texts in encounter order, with the trailing
end-of-stream flush appended as one more finalized result, joined with
single spaces — the loop agrees with the declarative description
`specTranscript`. -/
theorem C8_stream_accumulation (frames : List FrameOut)
    (finalText : Option String) :
    String.intercalate " " (runRecognizer frames finalText) =
      specTranscript frames finalText := by
  unfold runRecognizer specTranscript
  rw [show finalizedTexts (frames ++ [FrameOut.result finalText]) =
      finalizedTexts frames ++ finalizedTexts [FrameOut.result finalText] by
    simp [finalizedTexts, List.filterMap_append]]
  rw [collectLoop_append_eq]
  cases finalText with
  | none => simp [finalizedTexts]
  | some s =>
    by_cases hs : pyStrip s ≠ ""
    · simp [finalizedTexts, hs]
    · simp only [ne_eq, not_not] at hs
      simp [finalizedTexts, hs]

/-! ### `/convert` pipeline theorems -/

/-- C1 counterexample: when acquisition fails, `/convert` returns one fixed,
unclassified failure.  Two environments failing for different reasons — the
download service answering with an error status for the video (private or
restricted) versus every request to the service raising (unreachable) —
produce byte-for-byte identical responses, so the failure carries no
per-strategy classified sub-reason distinguishing them, contrary to the
claim. -/
theorem C1_counterexample :
    convert_video (some ytUrl) (some "user@example.com") envRestricted tenvHello
        emptyDisk =
      convert_video (some ytUrl) (some "user@example.com") envUnreachable tenvHello
        emptyDisk
  ∧ (convert_video (some ytUrl) (some "user@example.com") envRestricted tenvHello
        emptyDisk).message = downloadFailMsg
  ∧ (convert_video (some ytUrl) (some "user@example.com") envRestricted tenvHello
        emptyDisk).status = 500
  ∧ envRestricted ≠ envUnreachable :=
  ⟨rfl, rfl, rfl, by decide⟩

/-- C1 (amended): the code configures exactly one acquisition strategy (the
Y2Mate proxy, `download_via_y2mate`); whenever that strategy fails on an
accepted YouTube URL, `/convert` returns the single fixed HTTP 500 message
`downloadFailMsg`, with no per-strategy error classification. -/
theorem C1_amended (videoUrl email : Option String) (env : Y2Env)
    (tenv : TransEnv) (d0 : Disk)
    (h1 : pyFalsy videoUrl = false) (h2 : pyFalsy email = false)
    (h3 : (strHasSub (videoUrl.getD "") "youtube.com" ||
           strHasSub (videoUrl.getD "") "youtu.be") = true)
    (h4 : (download_via_y2mate (videoUrl.getD "") env d0).1 = none) :
    convert_video videoUrl email env tenv d0 =
      ⟨500, downloadFailMsg, (download_via_y2mate (videoUrl.getD "") env d0).2,
        true, none⟩ := by
  cases hd : download_via_y2mate (videoUrl.getD "") env d0 with
  | mk dl d1 =>
    rw [hd] at h4
    simp only at h4
    subst h4
    unfold convert_video
    rw [h1, h2]
    simp [h3, hd]

/-- C1 witness: the amended theorem at a concrete unreachable-service
environment. -/
theorem C1_amended_witness :
    convert_video (some ytUrl) (some "user@example.com") envUnreachable tenvHello
        emptyDisk =
      ⟨500, downloadFailMsg,
        (download_via_y2mate ytUrl envUnreachable emptyDisk).2, true, none⟩ :=
  C1_amended (some ytUrl) (some "user@example.com") envUnreachable tenvHello
    emptyDisk rfl rfl (by decide) rfl

/-- C2: the code has no caption path at all.  Evaluated at a fully
successful `/convert` invocation (the shape a captioned YouTube URL would
take), the pipeline still invokes the media downloader and creates the
media file `audio.mp3` (plus `temp_audio.wav` and `output.pdf`) before
reaching success — there is no skip path on which no media files are
created. -/
theorem C2_code_eval :
    (convert_video (some ytUrl) (some "user@example.com") envHappy tenvHello
        emptyDisk).status = 200
  ∧ (convert_video (some ytUrl) (some "user@example.com") envHappy tenvHello
        emptyDisk).downloadAttempted = true
  ∧ (convert_video (some ytUrl) (some "user@example.com") envHappy tenvHello
        emptyDisk).disk.written =
      ["audio.mp3", "temp_audio.wav", "output.pdf"] :=
  ⟨rfl, rfl, rfl⟩

/-- C3: cleanup fails on the early-return path.  When the Y2Mate download
streams a 500-byte file (below the 1000-byte floor), `download_via_y2mate`
returns `None` leaving the partial file on disk, and `convert_video`
returns the 500 error without any cleanup: `audio.mp3` (500 bytes) remains
on disk after the invocation returns. -/
theorem C3_leak_eval :
    (convert_video (some ytUrl) (some "user@example.com") envSmallDownload
        tenvHello emptyDisk).status = 500
  ∧ (convert_video (some ytUrl) (some "user@example.com") envSmallDownload
        tenvHello emptyDisk).message = downloadFailMsg
  ∧ (convert_video (some ytUrl) (some "user@example.com") envSmallDownload
        tenvHello emptyDisk).disk.files = [("audio.mp3", 500)] :=
  ⟨rfl, rfl, rfl⟩

/-- C4: when decoding completes (ffmpeg exited 0) and the accumulated
decoded text, after stripping, has fewer than 10 characters, the pipeline
returns success (HTTP 200) whose transcript is the fixed "no clear speech
detected" placeholder — never an error and never the raw short transcript. -/
theorem C4_placeholder (videoUrl email : Option String) (env : Y2Env)
    (tenv : TransEnv) (d0 : Disk) (p : String) (d1 : Disk)
    (h1 : pyFalsy videoUrl = false) (h2 : pyFalsy email = false)
    (h3 : (strHasSub (videoUrl.getD "") "youtube.com" ||
           strHasSub (videoUrl.getD "") "youtu.be") = true)
    (h4 : download_via_y2mate (videoUrl.getD "") env d0 = (some p, d1))
    (h5 : tenv.ffmpegRet = 0)
    (h6 : (pyStrip (String.intercalate " "
        (runRecognizer tenv.frames tenv.finalText))).length < 10) :
    (convert_video videoUrl email env tenv d0).status = 200 ∧
    (convert_video videoUrl email env tenv d0).transcript = some noSpeechMsg := by
  have ht : (transcribe_audio p tenv d1).1 = Except.ok noSpeechMsg := by
    unfold transcribe_audio
    rw [h5]
    simp [h6]
  cases htr : transcribe_audio p tenv d1 with
  | mk res d2 =>
    rw [htr] at ht
    simp only at ht
    subst ht
    unfold convert_video
    rw [h1, h2]
    simp [h3, h4, htr, create_pdf_from_text]

/-- C4 witness: a concrete run whose decode is the 3-character text "abc"
ends in success with the placeholder transcript (scenario E). -/
theorem C4_placeholder_witness :
    (convert_video (some ytUrl) (some "user@example.com") envBoundary tenvShort
        emptyDisk).status = 200 ∧
    (convert_video (some ytUrl) (some "user@example.com") envBoundary tenvShort
        emptyDisk).transcript = some noSpeechMsg :=
  C4_placeholder (some ytUrl) (some "user@example.com") envBoundary tenvShort
    emptyDisk "audio.mp3" ⟨[("audio.mp3", 1000)], ["audio.mp3"]⟩
    rfl rfl (by decide) rfl rfl (by decide)

/-- C5 counterexample: the conversion-failure error is one fixed message —
two runs with different ffmpeg diagnostic outputs produce identical errors,
so the error does not carry the diagnostic output; and a produced audio
file of size 1 byte (near zero but nonzero) is accepted, not failed with
the no-audio error. -/
theorem C5_counterexample :
    extractionStep 1 "stderr: codec not found" true 0 =
      extractionStep 1 "stderr: disk full" true 0
  ∧ extractionStep 1 "stderr: codec not found" true 0 =
      Except.error extractFailMsg
  ∧ extractionStep 0 "" true 1 = Except.ok () :=
  ⟨rfl, rfl, rfl⟩

/-- C5 (amended): the extraction step fails with the fixed conversion-error
message exactly when ffmpeg exits nonzero (its diagnostic output is logged,
not carried), fails with the no-audio message exactly when ffmpeg exits
zero and the produced file is absent or has exactly zero size, and succeeds
otherwise. -/
theorem C5_amended (ret : Int) (stderr : String) (outExists : Bool)
    (outSize : Nat) :
    (extractionStep ret stderr outExists outSize = Except.error extractFailMsg ↔
      ret ≠ 0)
  ∧ (extractionStep ret stderr outExists outSize = Except.error noAudioMsg ↔
      (ret = 0 ∧ (outExists = false ∨ outSize = 0)))
  ∧ (extractionStep ret stderr outExists outSize = Except.ok () ↔
      (ret = 0 ∧ outExists = true ∧ outSize ≠ 0)) := by
  have hmsg : extractFailMsg ≠ noAudioMsg := by decide
  by_cases h : ret = 0 <;> cases outExists <;> by_cases hz : outSize = 0 <;>
    simp [extractionStep, h, hz, hmsg, Ne.symm hmsg, bne_iff_ne]

/-- C6 counterexample: a `RemoteURL` not recognized as YouTube
(`https://vimeo.com/12345`) is rejected with HTTP 400 and the media
acquirer is never invoked — the pipeline does not proceed to
`MediaAcquisition` on such URLs, contrary to the claim. -/
theorem C6_counterexample :
    convert_video (some "https://vimeo.com/12345") (some "user@example.com")
        envUnreachable tenvHello emptyDisk =
      ⟨400, onlyYoutubeMsg, emptyDisk, false, none⟩ := rfl

/-- C6 (amended): every `RemoteURL` that does not contain "youtube.com" or
"youtu.be" is rejected with the fixed HTTP 400 only-YouTube message, with
no acquisition attempted and the disk untouched; only recognized YouTube
URLs proceed to media acquisition. -/
theorem C6_amended (videoUrl email : Option String) (env : Y2Env)
    (tenv : TransEnv) (d0 : Disk)
    (h1 : pyFalsy videoUrl = false) (h2 : pyFalsy email = false)
    (h3 : strHasSub (videoUrl.getD "") "youtube.com" = false)
    (h4 : strHasSub (videoUrl.getD "") "youtu.be" = false) :
    convert_video videoUrl email env tenv d0 =
      ⟨400, onlyYoutubeMsg, d0, false, none⟩ := by
  unfold convert_video
  rw [h1, h2]
  simp [h3, h4]

/-- C6 witness: the amended theorem at the concrete Vimeo URL. -/
theorem C6_amended_witness :
    convert_video (some "https://vimeo.com/12345") (some "user@example.com")
        envHappy tenvHello emptyDisk =
      ⟨400, onlyYoutubeMsg, emptyDisk, false, none⟩ :=
  C6_amended (some "https://vimeo.com/12345") (some "user@example.com")
    envHappy tenvHello emptyDisk rfl rfl (by decide) (by decide)

/-- C9: two distinct `/convert` invocations (different URLs, different
download environments) write exactly the same fixed temporary names
`audio.mp3`, `temp_audio.wav`, `output.pdf` — the working sets are
identical constants, not disjoint per-invocation names, so simultaneous
requests write to the same paths. -/
theorem C9_fixed_names_eval :
    (convert_video (some ytUrl) (some "user@example.com") envHappy tenvHello
        emptyDisk).disk.written = ["audio.mp3", "temp_audio.wav", "output.pdf"]
  ∧ (convert_video (some ytUrl2) (some "second.user@example.com") envHappy2
        tenvShort emptyDisk).disk.written =
      ["audio.mp3", "temp_audio.wav", "output.pdf"]
  ∧ ytUrl ≠ ytUrl2 :=
  ⟨rfl, rfl, by decide⟩

/-! ### Upload-gate lemmas (C10) -/

theorem listStartsWith_nil (l : List Char) : listStartsWith l [] = true := by
  cases l <;> rfl

theorem listHasSub_singleton (c : Char) (l : List Char) :
    listHasSub [c] l = true ↔ c ∈ l := by
  induction l with
  | nil => simp [listHasSub, listStartsWith]
  | cons a as ih =>
    simp only [listHasSub, listStartsWith, listStartsWith_nil, Bool.and_true,
      Bool.or_eq_true, beq_iff_eq, List.mem_cons, ih]
    constructor
    · rintro (h | h)
      · exact Or.inl h.symm
      · exact Or.inr h
    · rintro (h | h)
      · exact Or.inl h.symm
      · exact Or.inr h

theorem takeWhile_append_all (p : Char → Bool) (c : Char) (l2 : List Char)
    (h2 : p c = false) :
    ∀ l1 : List Char, (∀ x ∈ l1, p x = true) →
      (l1 ++ c :: l2).takeWhile p = l1 := by
  intro l1
  induction l1 with
  | nil =>
    intro _
    simp [List.takeWhile_cons, h2]
  | cons a as ih =>
    intro h1
    rw [List.cons_append, List.takeWhile_cons, h1 a (List.mem_cons_self a as)]
    rw [ih (fun x hx => h1 x (List.mem_cons_of_mem a hx))]
    simp

theorem takeWhile_dropWhile_split (c : Char) :
    ∀ r : List Char, c ∈ r →
      ∃ t, r = r.takeWhile (fun x => x != c) ++ c :: t := by
  intro r
  induction r with
  | nil => intro h; simp at h
  | cons a as ih =>
    intro h
    by_cases hac : a = c
    · subst hac
      refine ⟨as, ?_⟩
      simp [List.takeWhile_cons]
    · obtain h | h := List.mem_cons.mp h
      · exact absurd h.symm hac
      · obtain ⟨t, ht⟩ := ih h
        refine ⟨t, ?_⟩
        rw [List.takeWhile_cons]
        rw [bne_iff_ne.mpr hac]
        rw [if_pos rfl, List.cons_append]
        exact congrArg (List.cons a) ht

theorem split_at_last_dot (l : List Char) (h : '.' ∈ l) :
    ∃ base, l = base ++ '.' :: afterLastDotL l ∧ '.' ∉ afterLastDotL l := by
  have hr : '.' ∈ l.reverse := List.mem_reverse.mpr h
  obtain ⟨t, ht⟩ := takeWhile_dropWhile_split '.' l.reverse hr
  refine ⟨t.reverse, ?_, ?_⟩
  · have hrev := congrArg List.reverse ht
    rw [List.reverse_reverse] at hrev
    conv_lhs => rw [hrev]
    rw [afterLastDotL]
    simp [List.reverse_append]
  · intro hx
    rw [afterLastDotL, List.mem_reverse] at hx
    have := List.mem_takeWhile_imp hx
    simp at this

theorem allowed_file_iff (filename : String) :
    allowed_file filename = true ↔ claimedAllowed filename := by
  unfold allowed_file claimedAllowed
  rw [Bool.and_eq_true]
  constructor
  · rintro ⟨hdot, hmem⟩
    have hdot2 : listHasSub ['.'] filename.toList = true := hdot
    have hc : '.' ∈ filename.toList :=
      (listHasSub_singleton '.' filename.toList).mp hdot2
    obtain ⟨base, hsplit, hnot⟩ := split_at_last_dot _ hc
    exact ⟨base, afterLastDotL filename.toList, hsplit, hnot,
      List.elem_iff.mp hmem⟩
  · rintro ⟨base, ext, hsplit, hnot, hmem⟩
    have hext : afterLastDotL filename.toList = ext := by
      rw [hsplit, afterLastDotL]
      rw [List.reverse_append, List.reverse_cons, List.append_assoc]
      rw [List.singleton_append]
      rw [takeWhile_append_all _ '.' base.reverse (by simp) ext.reverse
        (fun x hx => by
          have hxm : x ∈ ext := List.mem_reverse.mp hx
          exact bne_iff_ne.mpr (fun he => hnot (he ▸ hxm)))]
      exact List.reverse_reverse ext
    constructor
    · show listHasSub ['.'] filename.toList = true
      refine (listHasSub_singleton '.' filename.toList).mpr ?_
      rw [hsplit]
      simp
    · rw [hext]
      exact List.elem_iff.mpr hmem

/-- Whatever the environment, the try block of the upload endpoint ends in
HTTP 500 or HTTP 200, never 400. -/
theorem convertUploadTry_status (env : UploadEnv) (d0 : Disk) :
    (convertUploadTry env d0).status = 500 ∨
    (convertUploadTry env d0).status = 200 := by
  unfold convertUploadTry
  dsimp only
  repeat' split
  all_goals simp

theorem upload_status_iff (email : Option String) (hv : Bool) (fn : String)
    (env : UploadEnv) (d0 : Disk) :
    (convert_upload email hv fn env d0).status ≠ 400 ↔
      (pyFalsy email = false ∧ hv = true ∧ allowed_file fn = true) := by
  unfold convert_upload
  by_cases h1 : pyFalsy email = true
  · simp [h1]
  · rw [Bool.not_eq_true] at h1
    by_cases h2 : hv = true
    · by_cases h3 : (fn == "") = true
      · have hfn : fn = "" := by simpa using h3
        subst hfn
        have h4 : allowed_file "" = false := by decide
        simp [h1, h2, h4]
      · rw [Bool.not_eq_true] at h3
        by_cases h4 : allowed_file fn = true
        · rcases convertUploadTry_status env d0 with h5 | h5 <;>
            simp [h1, h2, h3, h4, h5]
        · rw [Bool.not_eq_true] at h4
          simp [h1, h2, h3, h4]
    · have h2f : hv = false := by
        cases hv
        · rfl
        · exact absurd rfl h2
      simp [h1, h2f]

theorem upload_reject_no_write (email : Option String) (hv : Bool)
    (fn : String) (env : UploadEnv) (d0 : Disk)
    (h : allowed_file fn = false) :
    (convert_upload email hv fn env d0).status = 400 ∧
    (convert_upload email hv fn env d0).disk = d0 := by
  unfold convert_upload
  by_cases h1 : pyFalsy email = true
  · simp [h1]
  · rw [Bool.not_eq_true] at h1
    cases hv with
    | false => simp [h1]
    | true =>
      by_cases h3 : (fn == "") = true
      · simp [h1, h3]
      · rw [Bool.not_eq_true] at h3
        simp [h1, h3, h]

/-- C10: with the email present and a file part supplied, the upload
endpoint accepts the request (its response is not a 400 rejection) exactly
when the filename contains a dot and the lowercased extension after the
last dot is one of the eight allowed ones (`allowed_file` agrees with the
declarative split-at-last-dot predicate `claimedAllowed`); and every
request whose filename fails the predicate is rejected with HTTP 400
before any file is written (the disk is returned untouched). -/
theorem C10_upload_gate (email : Option String) (hasVideoField : Bool)
    (filename : String) (env : UploadEnv) (d0 : Disk) :
    ((convert_upload email hasVideoField filename env d0).status ≠ 400 ↔
      (pyFalsy email = false ∧ hasVideoField = true ∧
        allowed_file filename = true))
  ∧ (allowed_file filename = true ↔ claimedAllowed filename)
  ∧ (allowed_file filename = false →
      (convert_upload email hasVideoField filename env d0).status = 400 ∧
      (convert_upload email hasVideoField filename env d0).disk = d0) :=
  ⟨upload_status_iff email hasVideoField filename env d0,
   allowed_file_iff filename,
   fun h => upload_reject_no_write email hasVideoField filename env d0 h⟩

end VideoToPdf
